import Mathlib

/-!
Verification of the sqlmesh core against its specification.

Shallow embedding of three source modules:
  - sqlmesh/core/config/connection.py (connection configs and their validators)
  - sqlmesh/core/state_sync/base.py   (StateReader.missing_intervals, get_versions)
  - sqlmesh/core/renderer.py          (BaseExpressionRenderer / QueryRenderer)

Dates are UTC epoch values modelled as naturals; machine behaviour that matters
(python truthiness, dict/cache mutation, exception control flow) is made explicit.
-/

/-! ## Connection configuration (connection.py) -/

/-- Python truthiness of an optional string value: None and the empty string are falsy. -/
def falsyStr : Option String → Bool
  | none => true
  | some s => s.isEmpty

/-- The subset of the raw values dict inspected by
SnowflakeConnectionConfig._validate_authenticator (connection.py:126-137). -/
structure SnowflakeValues where
  type_ : Option String
  authenticator : Option String
  user : Option String
  password : Option String
deriving DecidableEq, Repr

/-- Embeds SnowflakeConnectionConfig._validate_authenticator (connection.py:126-137):
a pre root validator over the raw values; returns the values unchanged or raises ConfigError. -/
def validate_authenticator (values : SnowflakeValues) : Except String SnowflakeValues :=
  if values.type_.isSome ∧ values.type_ ≠ some "snowflake" then .ok values
  else if falsyStr values.authenticator ∧ (falsyStr values.user ∨ falsyStr values.password) then
    .error "User and password must be provided if using default authentication"
  else .ok values

/-- The type of DuckDBConnectionConfig.concurrent_tasks (connection.py:78):
pydantic Literal[1], a type admitting only the value 1. -/
inductive LiteralOne where
  | one
deriving DecidableEq, Repr

def LiteralOne.toNat : LiteralOne → Nat
  | .one => 1

/-- Embeds DuckDBConnectionConfig (connection.py:68-94); only the fields relevant to
adapter construction. -/
structure DuckDBConnectionConfig where
  database : Option String
  concurrent_tasks : LiteralOne
deriving DecidableEq, Repr

/-- The part of an engine adapter that create_engine_adapter determines directly. -/
structure EngineAdapterShell where
  multithreaded : Bool
deriving DecidableEq, Repr

/-- Embeds _ConnectionConfig.create_engine_adapter (connection.py:54-65): the adapter is
constructed with multithreaded set exactly when concurrent_tasks > 1. -/
def create_engine_adapter (concurrent_tasks : Nat) : EngineAdapterShell :=
  { multithreaded := decide (concurrent_tasks > 1) }

/-- create_engine_adapter as invoked on a DuckDB config (connection.py:54-65, 78). -/
def DuckDBConnectionConfig.createEngineAdapter (c : DuckDBConnectionConfig) : EngineAdapterShell :=
  create_engine_adapter c.concurrent_tasks.toNat

/-! ## Versions gating (state_sync/base.py) -/

/-- Embeds SCHEMA_VERSION (state_sync/base.py:43-47): the number of migration modules. -/
def SCHEMA_VERSION (migrations : List String) : Nat := migrations.length

/-- Embeds the Versions pydantic model (state_sync/base.py:32-40); the sqlglot version is
represented by its major_minor pair (utils.major_minor applied to the stored string). -/
structure Versions where
  schema_version : Nat
  sqlglot_major_minor : Nat × Nat
deriving DecidableEq, Repr

/-- The two kinds of SQLMeshError raised by get_versions' raise_error helper
(state_sync/base.py:211-218): behind carries "Please upgrade {lib}", ahead carries
"Please run a migration". -/
inductive VersionIssue where
  | behind (lib : String)
  | ahead (lib : String)
deriving DecidableEq, Repr

/-- Python tuple comparison on (major, minor) pairs: lexicographic strict less-than. -/
def tuple_lt (a b : Nat × Nat) : Bool :=
  a.1 < b.1 ∨ (a.1 = b.1 ∧ a.2 < b.2)

/-- Embeds StateReader.get_versions (state_sync/base.py:200-233). The behind checks run
unconditionally; the ahead checks only run when validate is true. local_sqlglot is
major_minor(SQLGLOT_VERSION). -/
def get_versions (migrations : List String) (local_sqlglot : Nat × Nat)
    (stored : Versions) (validate : Bool) : Except VersionIssue Versions :=
  if SCHEMA_VERSION migrations < stored.schema_version then .error (.behind "SQLMesh")
  else if tuple_lt local_sqlglot stored.sqlglot_major_minor then .error (.behind "SQLGlot")
  else if validate ∧ stored.schema_version < SCHEMA_VERSION migrations then
    .error (.ahead "SQLMesh")
  else if validate ∧ tuple_lt stored.sqlglot_major_minor local_sqlglot then
    .error (.ahead "SQLGlot")
  else .ok stored

theorem tuple_lt_asymm {a b : Nat × Nat} (h : tuple_lt a b = true) : tuple_lt b a = false := by
  simp only [tuple_lt, decide_eq_true_eq, decide_eq_false_iff_not] at h ⊢
  omega

/-- C10: every valid DuckDB connection configuration has concurrent_tasks equal to 1
(the field's type admits no other value), so create_engine_adapter always constructs a
non-multithreaded adapter for DuckDB. -/
theorem duckdb_adapter_never_multithreaded (c : DuckDBConnectionConfig) :
    c.createEngineAdapter.multithreaded = false := by
  cases c with
  | mk db ct => cases ct; rfl

/-- C9: for a Snowflake configuration (type key absent or equal to "snowflake"),
validation raises a ConfigError if and only if no authenticator is provided and the
user or the password is missing; an authenticator, or both user and password, passes. -/
theorem snowflake_validator_error_iff (v : SnowflakeValues)
    (h : v.type_ = none ∨ v.type_ = some "snowflake") :
    (∃ e, validate_authenticator v = .error e) ↔
      (falsyStr v.authenticator = true ∧
        (falsyStr v.user = true ∨ falsyStr v.password = true)) := by
  have hguard : ¬ (v.type_.isSome ∧ v.type_ ≠ some "snowflake") := by
    rcases h with h | h <;> simp [h]
  rw [validate_authenticator, if_neg hguard]
  by_cases hc : falsyStr v.authenticator ∧ (falsyStr v.user ∨ falsyStr v.password)
  · rw [if_pos hc]
    exact iff_of_true ⟨_, rfl⟩ hc
  · rw [if_neg hc]
    exact iff_of_false (by rintro ⟨e, he⟩; exact Except.noConfusion he) hc

theorem snowflake_validator_error_iff_witness :
    ((some "snowflake" = (none : Option String) ∨
        (some "snowflake" : Option String) = some "snowflake") ∧
      ((∃ e, validate_authenticator ⟨some "snowflake", none, some "u", none⟩ = .error e) ↔
        (falsyStr (none : Option String) = true ∧
          (falsyStr (some "u") = true ∨ falsyStr (none : Option String) = true)))) :=
  ⟨Or.inr rfl, snowflake_validator_error_iff ⟨some "snowflake", none, some "u", none⟩ (Or.inr rfl)⟩

/-- C8 counterexample: with validate=false, a local schema version strictly greater than
the stored one does not raise the "run a migration" error; get_versions returns the stored
versions, contradicting the claim that the error is raised whenever local > stored. -/
theorem get_versions_ahead_not_raised_cex :
    SCHEMA_VERSION ["m0001", "m0002"] > 1 ∧
      get_versions ["m0001", "m0002"] (1, 0) ⟨1, (1, 0)⟩ false = .ok ⟨1, (1, 0)⟩ := by
  constructor
  · decide
  · rfl

/-- C8 (amended): the behind-direction errors ("upgrade library") are raised
unconditionally, for the schema version and for sqlglot's major.minor alike; the
ahead-direction errors ("run a migration") are raised only when validate is true
(the default); the local schema version equals the number of migration modules. -/
theorem get_versions_gating (ms : List String) (g : Nat × Nat) (stored : Versions)
    (validate : Bool) :
    (SCHEMA_VERSION ms = ms.length) ∧
    (SCHEMA_VERSION ms < stored.schema_version →
      get_versions ms g stored validate = .error (.behind "SQLMesh")) ∧
    (¬ SCHEMA_VERSION ms < stored.schema_version →
      tuple_lt g stored.sqlglot_major_minor = true →
      get_versions ms g stored validate = .error (.behind "SQLGlot")) ∧
    (validate = true → stored.schema_version < SCHEMA_VERSION ms →
      tuple_lt g stored.sqlglot_major_minor = false →
      get_versions ms g stored validate = .error (.ahead "SQLMesh")) ∧
    (validate = true → stored.schema_version = SCHEMA_VERSION ms →
      tuple_lt stored.sqlglot_major_minor g = true →
      get_versions ms g stored validate = .error (.ahead "SQLGlot")) ∧
    (validate = false → ¬ SCHEMA_VERSION ms < stored.schema_version →
      tuple_lt g stored.sqlglot_major_minor = false →
      get_versions ms g stored validate = .ok stored) := by
  refine ⟨rfl, ?_, ?_, ?_, ?_, ?_⟩
  · intro h
    rw [get_versions, if_pos h]
  · intro h1 h2
    rw [get_versions, if_neg h1, if_pos h2]
  · intro hv h1 h2
    have hnl : ¬ SCHEMA_VERSION ms < stored.schema_version := by omega
    rw [get_versions, if_neg hnl, if_neg (by simp [h2]), if_pos ⟨hv, h1⟩]
  · intro hv h1 h2
    have h2' : tuple_lt g stored.sqlglot_major_minor = false := tuple_lt_asymm h2
    rw [get_versions, if_neg (by omega), if_neg (by simp [h2']),
      if_neg (by omega), if_pos ⟨hv, h2⟩]
  · intro hv h1 h2
    rw [get_versions, if_neg h1, if_neg (by simp [h2]), if_neg (by simp [hv]),
      if_neg (by simp [hv])]

theorem get_versions_gating_witness :
    (SCHEMA_VERSION ["m0001"] = 1) ∧
      ((0 : Nat) < SCHEMA_VERSION ["m0001"] →
        tuple_lt (2, 3) (2, 3) = false →
        get_versions ["m0001"] (2, 3) ⟨0, (2, 3)⟩ true = .error (.ahead "SQLMesh")) := by
  refine ⟨(get_versions_gating ["m0001"] (2, 3) ⟨0, (2, 3)⟩ true).1, ?_⟩
  intro h1 h2
  exact (get_versions_gating ["m0001"] (2, 3) ⟨0, (2, 3)⟩ true).2.2.2.1 rfl h1 h2

/-! ## The scoped normalize-and-quote transformation (renderer.py:442-447) -/

/-- Expression state tracked through the _normalize_and_quote scope: which of the three
sqlglot passes have been applied to the (in-place mutated) expression. payload stands for
the remaining AST content, which the body of the scope may rewrite. -/
structure NQExpr where
  qualifiedTables : Bool
  normalized : Bool
  quoted : Bool
  payload : Nat
deriving DecidableEq, Repr

/-- sqlglot qualify_tables pass as called at renderer.py:444 (external library; modelled
as marking the expression qualified). -/
def qualify_tables (e : NQExpr) : NQExpr := { e with qualifiedTables := true }

/-- sqlglot normalize_identifiers pass as called at renderer.py:445. -/
def normalize_identifiers (e : NQExpr) : NQExpr := { e with normalized := true }

/-- sqlglot quote_identifiers pass as called at renderer.py:447. -/
def quote_identifiers (e : NQExpr) : NQExpr := { e with quoted := true }

/-- Embeds the contextlib.contextmanager _normalize_and_quote (renderer.py:442-447) applied
to a body (the code inside the with-block). Python semantics: the generator runs
qualify_tables and normalize_identifiers before the yield; the body receives the yielded
expression and either completes normally (second component none) or raises (some message).
On normal completion the code after the yield runs quote_identifiers; when the body raises,
the exception is thrown into the generator at the yield point and, with no try/finally
around the yield, propagates without running quote_identifiers. The result is the
expression state observable by the caller plus the escaped exception, if any. -/
def normalize_and_quote (e : NQExpr) (body : NQExpr → NQExpr × Option String) :
    NQExpr × Option String :=
  let e1 := normalize_identifiers (qualify_tables e)
  match body e1 with
  | (e2, none) => (quote_identifiers e2, none)
  | (e2, some msg) => (e2, some msg)

/-- C2 counterexample: a body that raises exits the _normalize_and_quote scope with the
exception propagated and the quote_identifiers pass not applied (the expression has been
qualified and normalized but is left unquoted), contradicting the claim that the quote
pass runs on every exit path including exceptions. -/
theorem normalize_and_quote_skips_quote_on_raise_cex :
    normalize_and_quote ⟨false, false, false, 0⟩ (fun x => (x, some "boom")) =
      (⟨true, true, false, 0⟩, some "boom") ∧
    ((normalize_and_quote ⟨false, false, false, 0⟩ (fun x => (x, some "boom"))).1).quoted
      = false := by
  exact ⟨rfl, rfl⟩

/-- C2 (amended): _normalize_and_quote qualifies table references and normalizes
identifiers for the dialect on entry, handing the body the transformed expression; on a
normal exit it runs the quote-identifiers pass on the body's result; but when the body
raises, the exception propagates and the quote pass is skipped. -/
theorem normalize_and_quote_spec (e : NQExpr) (body : NQExpr → NQExpr × Option String) :
    ((normalize_identifiers (qualify_tables e)).qualifiedTables = true ∧
      (normalize_identifiers (qualify_tables e)).normalized = true) ∧
    ((body (normalize_identifiers (qualify_tables e))).2 = none →
      normalize_and_quote e body =
        (quote_identifiers (body (normalize_identifiers (qualify_tables e))).1, none)) ∧
    (∀ msg, (body (normalize_identifiers (qualify_tables e))).2 = some msg →
      normalize_and_quote e body =
        ((body (normalize_identifiers (qualify_tables e))).1, some msg)) := by
  refine ⟨⟨rfl, rfl⟩, ?_, ?_⟩
  · intro hnone
    rw [normalize_and_quote]
    rcases hbody : body (normalize_identifiers (qualify_tables e)) with ⟨e2, r⟩
    rw [hbody] at hnone
    simp only at hnone
    subst hnone
    simp [hbody]
  · intro msg hsome
    rw [normalize_and_quote]
    rcases hbody : body (normalize_identifiers (qualify_tables e)) with ⟨e2, r⟩
    rw [hbody] at hsome
    simp only at hsome
    subst hsome
    simp [hbody]

theorem normalize_and_quote_spec_witness :
    (((fun (x : NQExpr) => (x, (none : Option String))) ⟨false, false, false, 3⟩).2 = none) ∧
      normalize_and_quote ⟨false, false, false, 3⟩
          (fun x => (x, (none : Option String))) =
        (⟨true, true, true, 3⟩, none) := by
  constructor
  · rfl
  · have h := (normalize_and_quote_spec ⟨false, false, false, 3⟩
      (fun x => (x, (none : Option String)))).2.1 rfl
    simpa using h

/-! ## StateReader.missing_intervals (state_sync/base.py:125-198) -/

/-- The per-snapshot data consulted by the missing_intervals loop. name is the snapshot
name checked against restatements; model_start records the snapshot's own start date.
payload stands for the snapshot's interval state, which remove_interval may rewrite
(snapshot.remove_interval mutates only the interval state, never name or model start). -/
structure MSnapshot where
  name : String
  model_start : Option Nat
  payload : Nat
deriving DecidableEq, Repr

/-- Modelled from the spec: scheduler.start_date(snapshot, snapshots) (sqlmesh/core/
scheduler.py, not under src/). Spec section 4.7 step 4 reads the per-snapshot clamp as
"snapshot.model.start ?? start_date", i.e. the snapshot's own start date when it has one. -/
def scheduler_start_date (s : MSnapshot) : Option Nat := s.model_start

/-- The body of the loop at state_sync/base.py:180-198, for one snapshot. removeFn
abstracts snapshot.remove_interval (sqlmesh/core/snapshot, not under src/): it rewrites
only the snapshot's interval state, given (start_date, end_date, latest). missingFn
abstracts snapshot.missing_intervals, producing the missing interval list from the given
window, latest and restatements. Returns the snapshot as mutated by the loop plus its
missing intervals. -/
def missing_intervals_step
    (removeFn : MSnapshot → Nat → Nat → Option Nat → Nat)
    (missingFn : MSnapshot → Nat → Nat → Option Nat → List String → List (Nat × Nat))
    (start_date end_date : Nat) (latest : Option Nat) (restatements : List String)
    (s : MSnapshot) : MSnapshot × List (Nat × Nat) :=
  let s := if s.name ∈ restatements then
      { s with payload := removeFn s start_date end_date latest }
    else s
  let intervals := missingFn s
      (max start_date ((scheduler_start_date s).getD start_date))
      end_date latest restatements
  (s, intervals)

/-- Embeds the loop of StateReader.missing_intervals (state_sync/base.py:175-198) over the
hydrated snapshots (Snapshot.hydrate_with_intervals_by_version, outside src/, is modelled
as having already produced the snapshot list). The result dict keeps insertion order and
holds exactly the snapshots whose missing-interval list is non-empty. -/
def missing_intervals
    (removeFn : MSnapshot → Nat → Nat → Option Nat → Nat)
    (missingFn : MSnapshot → Nat → Nat → Option Nat → List String → List (Nat × Nat))
    (start_date end_date : Nat) (latest : Option Nat) (restatements : List String)
    (snapshots : List MSnapshot) : List (MSnapshot × List (Nat × Nat)) :=
  snapshots.filterMap (fun s =>
    let p := missing_intervals_step removeFn missingFn start_date end_date latest
      restatements s
    if p.2.isEmpty then none else some p)

/-- C3: in StateReader.missing_intervals, a snapshot named in restatements first has
remove_interval(start_date, end_date, latest) applied; each snapshot's missing intervals
are then computed from max(start_date, its own start date when present, else start_date)
to end_date with the given latest and restatements; and the returned map holds exactly
the snapshots whose resulting missing-interval list is non-empty. -/
theorem missing_intervals_spec
    (removeFn : MSnapshot → Nat → Nat → Option Nat → Nat)
    (missingFn : MSnapshot → Nat → Nat → Option Nat → List String → List (Nat × Nat))
    (start_date end_date : Nat) (latest : Option Nat) (restatements : List String)
    (snapshots : List MSnapshot) (p : MSnapshot × List (Nat × Nat)) :
    p ∈ missing_intervals removeFn missingFn start_date end_date latest restatements
        snapshots ↔
      ∃ s ∈ snapshots,
        (p.1 = (if s.name ∈ restatements then
            { s with payload := removeFn s start_date end_date latest }
          else s)) ∧
        p.2 = missingFn p.1
            (max start_date (p.1.model_start.getD start_date))
            end_date latest restatements ∧
        p.2 ≠ [] := by
  rw [missing_intervals, List.mem_filterMap]
  constructor
  · rintro ⟨s, hs, hp⟩
    by_cases hne : (missing_intervals_step removeFn missingFn start_date end_date latest
        restatements s).2.isEmpty
    · rw [if_pos hne] at hp
      exact absurd hp (by simp)
    · rw [if_neg hne] at hp
      have hp' : p = missing_intervals_step removeFn missingFn start_date end_date latest
          restatements s := by
        exact (Option.some.injEq _ _).mp hp |>.symm
      refine ⟨s, hs, ?_, ?_, ?_⟩
      · rw [hp', missing_intervals_step]
      · rw [hp']
        simp [missing_intervals_step, scheduler_start_date]
      · intro hempty
        rw [hp'] at hempty
        rw [hempty] at hne
        simp at hne
  · rintro ⟨s, hs, h1, h2, h3⟩
    refine ⟨s, hs, ?_⟩
    have hstep : missing_intervals_step removeFn missingFn start_date end_date latest
        restatements s = p := by
      rw [missing_intervals_step]
      simp only [scheduler_start_date]
      refine Prod.ext ?_ ?_
      · simp only
        exact h1.symm
      · simp only
        rw [h2, h1]
    rw [hstep, if_neg (by simpa using h3)]

theorem missing_intervals_spec_witness :
    ((⟨"a", some 5, 0⟩ : MSnapshot), [((5 : Nat), (6 : Nat))]) ∈
      missing_intervals (fun _ _ _ _ => 0) (fun _ lo hi _ _ => [(lo, hi)])
        3 6 none [] [⟨"a", some 5, 0⟩] :=
  (missing_intervals_spec (fun _ _ _ _ => 0) (fun _ lo hi _ _ => [(lo, hi)])
      3 6 none [] [⟨"a", some 5, 0⟩] (⟨"a", some 5, 0⟩, [(5, 6)])).mpr
    ⟨⟨"a", some 5, 0⟩, by decide, by decide, by decide, by decide⟩

/-! ## The renderer pipeline (renderer.py:54-364) -/

/-- The renderer cache key: the (start, end, latest) datetime triple produced by _dates
(renderer.py:43-51, 99-100, 301). -/
abbrev DateKey := Nat × Nat × Nat

/-- Python exceptions flowing through the renderer: ParsetimeAdapterCallError (re-raised
unchanged at renderer.py:127-128, caught at renderer.py:314-315), ConfigError carrying a
message and the model path it references, and any other exception. -/
inductive PyExc where
  | parsetimeAdapterCall
  | configError (msg : String) (path : String)
  | otherExc (msg : String)
deriving DecidableEq, Repr

/-- Dict lookup in a cache map modelled as an association list (most recent insertion
first). -/
def lookupA {α : Type} (xs : List (DateKey × α)) (k : DateKey) : Option α :=
  (xs.find? (fun p => p.1 = k)).map (fun p => p.2)

/-- The two mutable cache maps of a QueryRenderer: BaseExpressionRenderer._cache
(renderer.py:73, post-macro expressions) and QueryRenderer._optimized_cache
(renderer.py:265, post-optimization expressions). Both are keyed only by DateKey. -/
structure QRState (Expr : Type) where
  cache : List (DateKey × List Expr)
  optimized_cache : List (DateKey × Expr)
deriving DecidableEq, Repr

/-- Embeds BaseExpressionRenderer._render (renderer.py:75-160). compute abstracts the
body of the cache-miss branch (lines 102-157): the jinja/macro expansion producing the
post-macro expression list; it receives the date key and the snapshots/is_dev context
that the code feeds into the jinja environment (renderer.py:110-112), and may raise.
On a cache hit the cached list is returned and nothing is recomputed; on a miss the
computed list is stored under the key. An exception from compute leaves the cache
untouched. -/
def base_render {σ Expr : Type}
    (compute : DateKey → List σ → Bool → Except PyExc (List Expr))
    (cache : List (DateKey × List Expr)) (key : DateKey)
    (snapshots : List σ) (is_dev : Bool) :
    Except PyExc (List Expr × List (DateKey × List Expr)) :=
  match lookupA cache key with
  | some es => .ok (es, cache)
  | none =>
    match compute key snapshots is_dev with
    | .error e => .error e
    | .ok es => .ok (es, (key, es) :: cache)

/-- Embeds the first half of QueryRenderer.render (renderer.py:301-330): the cache keys,
skip_cache, the optimized-cache consultation gated on skip_cache/optimize, the render of
the post-macro expressions via BaseExpressionRenderer._render, the single-statement
checks, the optimization, and the optimized-cache write gated on skip_cache. optimizeFn
abstracts self._optimize_query. Returns the cache state together with either the query
(some), none when a ParsetimeAdapterCallError was caught (renderer.py:314-315), or the
propagated exception; python exceptions do not roll back cache mutations that already
happened, so the state is threaded through error results as well. -/
def query_render_stage1 {σ Expr : Type}
    (compute : DateKey → List σ → Bool → Except PyExc (List Expr))
    (optimizeFn : Expr → Expr)
    (st : QRState Expr) (key : DateKey)
    (snapshots : List σ) (expand : List String) (is_dev : Bool)
    (optimize : Bool) :
    QRState Expr × Except PyExc (Option Expr) :=
  let skip_cache : Bool := ¬ (snapshots.isEmpty ∧ expand.isEmpty)
  let renderPath : QRState Expr × Except PyExc (Option Expr) :=
    match base_render compute st.cache key snapshots is_dev with
    | .error .parsetimeAdapterCall => (st, .ok none)
    | .error e => (st, .error e)
    | .ok ([], cache1) =>
      ({ st with cache := cache1 }, .error (.configError "Failed to render query" ""))
    | .ok ([q], cache1) =>
      if optimize then
        let q := optimizeFn q
        let oc := if skip_cache then st.optimized_cache else (key, q) :: st.optimized_cache
        (⟨cache1, oc⟩, .ok (some q))
      else (⟨cache1, st.optimized_cache⟩, .ok (some q))
    | .ok (_, cache1) =>
      ({ st with cache := cache1 }, .error (.configError "Too many statements in query" ""))
  if skip_cache ∨ ¬ optimize then renderPath
  else
    match lookupA st.optimized_cache key with
    | some q => (st, .ok (some q))
    | none => renderPath

/-- Embeds QueryRenderer.render (renderer.py:269-364): the first half above, then table
resolution (resolveFn abstracts self._resolve_tables, applied after optimization,
renderer.py:332-342), then the incremental filter (renderer.py:344-359): hasTimeColumn
is the truthiness of self._time_column and wrapFn abstracts the wrapping of
renderer.py:347-359, applied exactly when add_incremental_filter and the time column
are both present. -/
def query_render {σ Expr : Type}
    (compute : DateKey → List σ → Bool → Except PyExc (List Expr))
    (optimizeFn : Expr → Expr)
    (resolveFn : Expr → List σ → List String → Bool → Expr)
    (hasTimeColumn : Bool) (wrapFn : Expr → Expr)
    (st : QRState Expr) (key : DateKey)
    (snapshots : List σ) (expand : List String) (is_dev : Bool)
    (add_incremental_filter : Bool) (optimize : Bool) :
    QRState Expr × Except PyExc (Option Expr) :=
  match query_render_stage1 compute optimizeFn st key snapshots expand is_dev optimize with
  | (st1, .ok (some q)) =>
    let q := resolveFn q snapshots expand is_dev
    let q := if add_incremental_filter ∧ hasTimeColumn then wrapFn q else q
    (st1, .ok (some q))
  | other => other

theorem query_render_skip_eq {σ Expr : Type}
    (compute : DateKey → List σ → Bool → Except PyExc (List Expr))
    (optimizeFn : Expr → Expr) (resolveFn : Expr → List σ → List String → Bool → Expr)
    (hasTimeColumn : Bool) (wrapFn : Expr → Expr) (st : QRState Expr) (key : DateKey)
    (snapshots : List σ) (expand : List String) (is_dev aif o : Bool)
    (hskip : ¬ (snapshots.isEmpty = true ∧ expand.isEmpty = true)) :
    query_render compute optimizeFn resolveFn hasTimeColumn wrapFn st key snapshots expand
        is_dev aif o =
      match base_render compute st.cache key snapshots is_dev with
      | .error .parsetimeAdapterCall => (st, .ok none)
      | .error e => (st, .error e)
      | .ok ([], c1) =>
        ({ st with cache := c1 }, .error (.configError "Failed to render query" ""))
      | .ok ([q], c1) =>
        (⟨c1, st.optimized_cache⟩,
          .ok (some (
            let q1 := resolveFn (if o then optimizeFn q else q) snapshots expand is_dev
            if aif ∧ hasTimeColumn then wrapFn q1 else q1)))
      | .ok (_, c1) =>
        ({ st with cache := c1 },
          .error (.configError "Too many statements in query" "")) := by
  have hsc : decide (¬ (snapshots.isEmpty = true ∧ expand.isEmpty = true)) = true :=
    decide_eq_true hskip
  rcases hb : base_render compute st.cache key snapshots is_dev with e | ⟨es, c1⟩
  · cases e <;> simp [query_render, query_render_stage1, hsc, hb]
  · match es with
    | [] => simp [query_render, query_render_stage1, hsc, hb]
    | [q] => cases o <;> simp [query_render, query_render_stage1, hsc, hb]
    | q :: q2 :: tl => simp [query_render, query_render_stage1, hsc, hb]

theorem query_render_noskip_eq {σ Expr : Type}
    (compute : DateKey → List σ → Bool → Except PyExc (List Expr))
    (optimizeFn : Expr → Expr) (resolveFn : Expr → List σ → List String → Bool → Expr)
    (hasTimeColumn : Bool) (wrapFn : Expr → Expr) (st : QRState Expr) (key : DateKey)
    (is_dev aif o : Bool) :
    query_render compute optimizeFn resolveFn hasTimeColumn wrapFn st key [] []
        is_dev aif o =
      match (if o then lookupA st.optimized_cache key else none) with
      | some q =>
        (st, .ok (some (
          let q1 := resolveFn q [] [] is_dev
          if aif ∧ hasTimeColumn then wrapFn q1 else q1)))
      | none =>
        match base_render compute st.cache key [] is_dev with
        | .error .parsetimeAdapterCall => (st, .ok none)
        | .error e => (st, .error e)
        | .ok ([], c1) =>
          ({ st with cache := c1 }, .error (.configError "Failed to render query" ""))
        | .ok ([q], c1) =>
          (⟨c1, if o then (key, if o then optimizeFn q else q) :: st.optimized_cache
              else st.optimized_cache⟩,
            .ok (some (
              let q1 := resolveFn (if o then optimizeFn q else q) [] [] is_dev
              if aif ∧ hasTimeColumn then wrapFn q1 else q1)))
        | .ok (_, c1) =>
          ({ st with cache := c1 },
            .error (.configError "Too many statements in query" "")) := by
  cases o with
  | false =>
    rcases hb : base_render compute st.cache key [] is_dev with e | ⟨es, c1⟩
    · cases e <;> simp [query_render, query_render_stage1, hb]
    · match es with
      | [] => simp [query_render, query_render_stage1, hb]
      | [q] => simp [query_render, query_render_stage1, hb]
      | q :: q2 :: tl => simp [query_render, query_render_stage1, hb]
  | true =>
    rcases hl : lookupA st.optimized_cache key with _ | q
    · rcases hb : base_render compute st.cache key [] is_dev with e | ⟨es, c1⟩
      · cases e <;> simp [query_render, query_render_stage1, hb, hl]
      · match es with
        | [] => simp [query_render, query_render_stage1, hb, hl]
        | [q] => simp [query_render, query_render_stage1, hb, hl]
        | q :: q2 :: tl => simp [query_render, query_render_stage1, hb, hl]
    · simp [query_render, query_render_stage1, hl]

/-- C1 (amended): both renderer caches are keyed only by the (start, end, latest)
triple. In a QueryRenderer.render call with snapshots or expand non-empty, the
optimized cache is not written (the post-optimization map is returned unchanged) and
not read (the call's outcome and resulting post-macro cache are the same for any
contents of the optimized cache), while the unoptimized post-macro cache is still
consulted and populated as usual; and a subsequent call without snapshots/expand for
the same key is unaffected by the earlier call, provided the post-macro computation
does not depend on the snapshots context passed to the jinja environment — without
that proviso the post-macro cache, keyed only by the dates, hands the later call a
result computed under the earlier call's snapshots. -/
theorem query_render_cache_isolation {σ Expr : Type}
    (compute : DateKey → List σ → Bool → Except PyExc (List Expr))
    (optimizeFn : Expr → Expr) (resolveFn : Expr → List σ → List String → Bool → Expr)
    (hasTimeColumn : Bool) (wrapFn : Expr → Expr) (st : QRState Expr) (key : DateKey)
    (snapshots : List σ) (expand : List String) (is_dev aif o : Bool)
    (hne : ¬ (snapshots.isEmpty = true ∧ expand.isEmpty = true)) :
    (((query_render compute optimizeFn resolveFn hasTimeColumn wrapFn st key snapshots
        expand is_dev aif o).1).optimized_cache = st.optimized_cache) ∧
    (∀ oc : List (DateKey × Expr),
      ((query_render compute optimizeFn resolveFn hasTimeColumn wrapFn ⟨st.cache, oc⟩ key
          snapshots expand is_dev aif o).2 =
        (query_render compute optimizeFn resolveFn hasTimeColumn wrapFn st key snapshots
          expand is_dev aif o).2) ∧
      (((query_render compute optimizeFn resolveFn hasTimeColumn wrapFn ⟨st.cache, oc⟩ key
          snapshots expand is_dev aif o).1).cache =
        ((query_render compute optimizeFn resolveFn hasTimeColumn wrapFn st key snapshots
          expand is_dev aif o).1).cache)) ∧
    (((query_render compute optimizeFn resolveFn hasTimeColumn wrapFn st key snapshots
        expand is_dev aif o).1).cache =
      (match base_render compute st.cache key snapshots is_dev with
       | .ok (_, c1) => c1
       | .error _ => st.cache)) ∧
    ((∀ k s d, compute k s d = compute k ([] : List σ) d) →
      ∀ aif2 o2 : Bool,
        (query_render compute optimizeFn resolveFn hasTimeColumn wrapFn
            ((query_render compute optimizeFn resolveFn hasTimeColumn wrapFn st key
              snapshots expand is_dev aif o).1) key [] [] is_dev aif2 o2).2 =
        (query_render compute optimizeFn resolveFn hasTimeColumn wrapFn st key [] []
            is_dev aif2 o2).2) := by
  have hE := query_render_skip_eq compute optimizeFn resolveFn hasTimeColumn wrapFn st key
    snapshots expand is_dev aif o hne
  have hE2 := fun oc => query_render_skip_eq compute optimizeFn resolveFn hasTimeColumn
    wrapFn ⟨st.cache, oc⟩ key snapshots expand is_dev aif o hne
  refine ⟨?_, ?_, ?_, ?_⟩
  · rw [hE]
    rcases hb : base_render compute st.cache key snapshots is_dev with e | ⟨es, c1⟩
    · cases e <;> simp
    · rcases es with _ | ⟨q, _ | ⟨q2, tl⟩⟩ <;> simp
  · intro oc
    rw [hE, hE2 oc]
    rcases hb : base_render compute st.cache key snapshots is_dev with e | ⟨es, c1⟩
    · cases e <;> simp
    · rcases es with _ | ⟨q, _ | ⟨q2, tl⟩⟩ <;> simp
  · rw [hE]
    rcases hb : base_render compute st.cache key snapshots is_dev with e | ⟨es, c1⟩
    · cases e <;> simp
    · rcases es with _ | ⟨q, _ | ⟨q2, tl⟩⟩ <;> simp
  · intro hcomp aif2 o2
    rcases hlk : lookupA st.cache key with _ | es0
    · rcases hcv : compute key snapshots is_dev with e | es
      · have hb : base_render compute st.cache key snapshots is_dev = .error e := by
          simp [base_render, hlk, hcv]
        have hst1 : (query_render compute optimizeFn resolveFn hasTimeColumn wrapFn st key
            snapshots expand is_dev aif o).1 = st := by
          rw [hE, hb]
          cases e <;> simp
        rw [hst1]
      · have hb : base_render compute st.cache key snapshots is_dev =
            .ok (es, (key, es) :: st.cache) := by
          simp [base_render, hlk, hcv]
        have hcv0 : compute key ([] : List σ) is_dev = .ok es := by
          rw [← hcomp key snapshots is_dev, hcv]
        have hst1 : (query_render compute optimizeFn resolveFn hasTimeColumn wrapFn st key
            snapshots expand is_dev aif o).1 = ⟨(key, es) :: st.cache, st.optimized_cache⟩ := by
          rw [hE, hb]
          rcases es with _ | ⟨q, _ | ⟨q2, tl⟩⟩ <;> simp
        rw [hst1]
        have hbase1 : base_render compute ((key, es) :: st.cache) key ([] : List σ) is_dev =
            .ok (es, (key, es) :: st.cache) := by
          simp [base_render, lookupA]
        have hbase2 : base_render compute st.cache key ([] : List σ) is_dev =
            .ok (es, (key, es) :: st.cache) := by
          simp [base_render, hlk, hcv0]
        rw [query_render_noskip_eq, query_render_noskip_eq, hbase1, hbase2]
        rcases hl2 : (if o2 = true then
            lookupA (QRState.mk ((key, es) :: st.cache) st.optimized_cache).optimized_cache key
          else none) with _ | q0
        · rcases es with _ | ⟨q, _ | ⟨q2, tl⟩⟩ <;> simp
        · simp
    · have hb : base_render compute st.cache key snapshots is_dev = .ok (es0, st.cache) := by
        simp [base_render, hlk]
      have hst1 : (query_render compute optimizeFn resolveFn hasTimeColumn wrapFn st key
          snapshots expand is_dev aif o).1 = st := by
        rw [hE, hb]
        rcases es0 with _ | ⟨q, _ | ⟨q2, tl⟩⟩ <;> simp
      rw [hst1]

/-- A concrete post-macro computation whose result depends on the snapshots context, as
realizable by a jinja template reading the snapshots mapping the code passes into the
jinja environment (renderer.py:110-112). -/
def computeSnapshotCount : DateKey → List Unit → Bool → Except PyExc (List Nat) :=
  fun _ snaps _ => .ok [snaps.length]

/-- C1 counterexample: a render call with a snapshot populates the post-macro cache,
keyed only by the dates, with a snapshot-dependent result; the subsequent call without
snapshots/expand for the same key then returns 1 where a fresh call without the earlier
one returns 0 — the subsequent call is affected by the earlier call's snapshots,
contradicting the claim's final sentence. -/
theorem query_render_snapshot_leak_cex :
    ((query_render computeSnapshotCount id (fun q _ _ _ => q) false id
        ((query_render computeSnapshotCount id (fun q _ _ _ => q) false id
            ⟨[], []⟩ (0, 0, 0) [()] [] false false true).1)
        (0, 0, 0) [] [] false false true).2 = .ok (some 1)) ∧
    ((query_render computeSnapshotCount id (fun q _ _ _ => q) false id
        ⟨[], []⟩ (0, 0, 0) [] [] false false true).2 = .ok (some 0)) ∧
    (1 : Nat) ≠ 0 := by
  refine ⟨rfl, rfl, by decide⟩

theorem query_render_cache_isolation_witness :
    (¬ (([()] : List Unit).isEmpty = true ∧ ([] : List String).isEmpty = true)) ∧
    (((query_render (fun (_ : DateKey) (_ : List Unit) (_ : Bool) => Except.ok [(5 : Nat)])
        id (fun q _ _ _ => q) false id ⟨[], []⟩ (0, 0, 0) [()] [] false false
        true).1).optimized_cache = []) ∧
    ((query_render (fun (_ : DateKey) (_ : List Unit) (_ : Bool) => Except.ok [(5 : Nat)])
        id (fun q _ _ _ => q) false id
        ((query_render (fun (_ : DateKey) (_ : List Unit) (_ : Bool) => Except.ok [(5 : Nat)])
            id (fun q _ _ _ => q) false id ⟨[], []⟩ (0, 0, 0) [()] [] false false true).1)
        (0, 0, 0) [] [] false true true).2 =
      (query_render (fun (_ : DateKey) (_ : List Unit) (_ : Bool) => Except.ok [(5 : Nat)])
        id (fun q _ _ _ => q) false id ⟨[], []⟩ (0, 0, 0) [] [] false true true).2) := by
  have h := query_render_cache_isolation
    (fun (_ : DateKey) (_ : List Unit) (_ : Bool) => Except.ok [(5 : Nat)])
    id (fun q _ _ _ => q) false id ⟨[], []⟩ (0, 0, 0) [()] [] false false true (by decide)
  exact ⟨by decide, h.1, h.2.2.2 (fun _ _ _ => rfl) false true⟩

/-! ## The incremental filter (renderer.py:344-389) -/

/-- Embeds core.model.kind.TimeColumn as consumed by time_column_filter
(renderer.py:380-389): the declared time column name. -/
structure TimeColumn where
  column : String
deriving DecidableEq, Repr

/-- The shape of a rendered query at the incremental-filter step. base is the query as
it came out of table resolution (withC its optional WITH clause, body abstracting the
rest); filtered is the wrapped form SELECT * FROM (sub) AS subAlias WHERE col BETWEEN
lo AND hi, carrying its own optional WITH clause. W models WITH clauses, V the value
expressions produced by the model's time_converter. -/
inductive IQuery (W V : Type) where
  | base (withC : Option W) (body : Nat)
  | filtered (withC : Option W) (sub : IQuery W V) (subAlias : String) (col : String)
      (lo : V) (hi : V)
deriving DecidableEq

/-- The WITH clause of a query (query.args of renderer.py:349). -/
def IQuery.withClause {W V : Type} : IQuery W V → Option W
  | .base w _ => w
  | .filtered w _ _ _ _ _ => w

/-- The query after query.args.pop("with", None) (renderer.py:349) removed its WITH
clause. -/
def IQuery.popWith {W V : Type} : IQuery W V → IQuery W V
  | .base _ b => .base none b
  | .filtered _ s a c lo hi => .filtered none s a c lo hi

/-- Embeds QueryRenderer.time_column_filter (renderer.py:380-389): raises SQLMeshError
when the model has no time column; otherwise a BETWEEN on the time column whose bounds
both go through the model's time_converter. -/
def time_column_filter {V : Type} (time_column : Option TimeColumn)
    (time_converter : Nat → V) (startv endv : Nat) : Except String (String × V × V) :=
  match time_column with
  | none =>
    .error "Cannot produce time column filter because model does not have a time column."
  | some tc => .ok (tc.column, time_converter startv, time_converter endv)

/-- Embeds the incremental-filter wrapping (renderer.py:346-359), reached when
add_incremental_filter is truthy and the model has time column tc: pop the WITH clause
off the (copied) query, build SELECT * FROM (query) AS "_subquery" WHERE tc.column
BETWEEN time_converter(start) AND time_converter(end), and re-hoist the popped WITH
clause onto the outer query. startv/endv are the first two components of the _dates
triple (renderer.py:348, 355). -/
def incremental_wrap {W V : Type} (tc : TimeColumn) (time_converter : Nat → V)
    (startv endv : Nat) (q : IQuery W V) : IQuery W V :=
  .filtered q.withClause q.popWith "_subquery" tc.column
    (time_converter startv) (time_converter endv)

/-- C6: when the model declares a time_column tc, QueryRenderer.render with
add_incremental_filter=true returns the rendered (post-resolution) query wrapped as
SELECT * FROM (original) AS "_subquery" WHERE tc BETWEEN time_converter(start) AND
time_converter(end), with any WITH clause of the original query re-hoisted onto the
outer query (the inner subquery losing it); the call differs from the same call with
add_incremental_filter=false exactly by this wrapping; and when
add_incremental_filter=false or the model has no time column, no wrapping occurs. -/
theorem query_render_incremental_filter {σ W V : Type}
    (compute : DateKey → List σ → Bool → Except PyExc (List (IQuery W V)))
    (optimizeFn : IQuery W V → IQuery W V)
    (resolveFn : IQuery W V → List σ → List String → Bool → IQuery W V)
    (tc : TimeColumn) (time_converter : Nat → V)
    (st : QRState (IQuery W V)) (key : DateKey)
    (snapshots : List σ) (expand : List String) (is_dev o : Bool) :
    ((query_render compute optimizeFn resolveFn true
          (incremental_wrap tc time_converter key.1 key.2.1)
          st key snapshots expand is_dev true o).1 =
        (query_render compute optimizeFn resolveFn true
          (incremental_wrap tc time_converter key.1 key.2.1)
          st key snapshots expand is_dev false o).1) ∧
    ((query_render compute optimizeFn resolveFn true
          (incremental_wrap tc time_converter key.1 key.2.1)
          st key snapshots expand is_dev true o).2 =
        Except.map (Option.map (incremental_wrap tc time_converter key.1 key.2.1))
          ((query_render compute optimizeFn resolveFn true
            (incremental_wrap tc time_converter key.1 key.2.1)
            st key snapshots expand is_dev false o).2)) ∧
    (∀ q : IQuery W V,
      incremental_wrap tc time_converter key.1 key.2.1 q =
        .filtered q.withClause q.popWith "_subquery" tc.column
          (time_converter key.1) (time_converter key.2.1)) ∧
    (∀ hasTC : Bool, ∀ wrapFn : IQuery W V → IQuery W V, ∀ aif : Bool,
      (aif = false ∨ hasTC = false) →
      query_render compute optimizeFn resolveFn hasTC wrapFn
          st key snapshots expand is_dev aif o =
        query_render compute optimizeFn resolveFn hasTC wrapFn
          st key snapshots expand is_dev false o) := by
  refine ⟨?_, ?_, fun q => rfl, ?_⟩
  · rw [query_render, query_render]
    rcases query_render_stage1 compute optimizeFn st key snapshots expand is_dev o
      with ⟨st1, (_ | _) | (_ | q)⟩ <;> simp
  · rw [query_render, query_render]
    rcases query_render_stage1 compute optimizeFn st key snapshots expand is_dev o
      with ⟨st1, (_ | _) | (_ | q)⟩ <;> simp [Except.map]
  · rintro hasTC wrapFn aif (ha | ht)
    · rw [ha]
    · rw [query_render, query_render, ht]
      rcases query_render_stage1 compute optimizeFn st key snapshots expand is_dev o
        with ⟨st1, (_ | _) | (_ | q)⟩ <;> simp

theorem query_render_incremental_filter_witness :
    ((true = false ∨ false = false) →
      query_render (fun (_ : DateKey) (_ : List Unit) (_ : Bool) =>
          Except.ok ([IQuery.base (some 7) 3] : List (IQuery Nat Nat)))
        id (fun q _ _ _ => q) false id ⟨[], []⟩ (1, 2, 0) [] [] false true true =
      query_render (fun (_ : DateKey) (_ : List Unit) (_ : Bool) =>
          Except.ok ([IQuery.base (some 7) 3] : List (IQuery Nat Nat)))
        id (fun q _ _ _ => q) false id ⟨[], []⟩ (1, 2, 0) [] [] false false true) ∧
    ((query_render (fun (_ : DateKey) (_ : List Unit) (_ : Bool) =>
          Except.ok ([IQuery.base (some 7) 3] : List (IQuery Nat Nat)))
        id (fun q _ _ _ => q) true
        (incremental_wrap ⟨"ds"⟩ (fun (n : Nat) => n) 1 2)
        ⟨[], []⟩ (1, 2, 0) [] [] false true true).2 =
      .ok (some (.filtered (some 7) (.base none 3) "_subquery" "ds" 1 2))) := by
  have h := query_render_incremental_filter
    (fun (_ : DateKey) (_ : List Unit) (_ : Bool) => Except.ok ([IQuery.base (some 7) 3] : List (IQuery Nat Nat)))
    id (fun q _ _ _ => q) ⟨"ds"⟩ (fun (n : Nat) => n) ⟨[], []⟩ (1, 2, 0) [] [] false true
  exact ⟨h.2.2.2 false id true, rfl⟩

/-! ## ParsetimeAdapterCallError handling (renderer.py:114-130, 304-315) -/

/-- Embeds the exception handling around the jinja template stage of
BaseExpressionRenderer._render (renderer.py:114-130). body abstracts the try-block
(render the template to SQL text, reject blank output, parse it with the model's
dialect, reject an empty parse): either the parsed expressions or the python exception
it raises. The handlers: a ParsetimeAdapterCallError is re-raised unchanged
(renderer.py:127-128); any other exception ex — including the ConfigError raised for an
empty parse at line 125 — is caught at line 129 and raised as
ConfigError("Invalid expression. {ex} at path") referencing the model path. -/
def jinja_stage_handler {Expr : Type} (path : String)
    (body : Except PyExc (List Expr)) : Except PyExc (List Expr) :=
  match body with
  | .ok es => .ok es
  | .error .parsetimeAdapterCall => .error .parsetimeAdapterCall
  | .error (.configError m _) => .error (.configError ("Invalid expression. " ++ m) path)
  | .error (.otherExc m) => .error (.configError ("Invalid expression. " ++ m) path)

/-- C7: when the jinja template stage raises ParsetimeAdapterCallError,
BaseExpressionRenderer._render re-raises it unchanged (no ConfigError wrapping) and
QueryRenderer.render catches it and returns None instead of raising (given the caches
do not already hold the key, so that rendering actually runs); every other exception
during jinja template rendering or parsing is surfaced as a ConfigError referencing
the model path. -/
theorem parsetime_adapter_call_handling {Expr : Type} (path : String)
    (body : Except PyExc (List Expr)) (optimizeFn : Expr → Expr)
    (resolveFn : Expr → List Unit → List String → Bool → Expr)
    (hasTimeColumn : Bool) (wrapFn : Expr → Expr) (st : QRState Expr) (key : DateKey)
    (snapshots : List Unit) (expand : List String) (is_dev aif o : Bool) :
    (body = .error .parsetimeAdapterCall →
      jinja_stage_handler path body = .error .parsetimeAdapterCall ∧
      (lookupA st.cache key = none → lookupA st.optimized_cache key = none →
        query_render (fun _ _ _ => jinja_stage_handler path body) optimizeFn resolveFn
            hasTimeColumn wrapFn st key snapshots expand is_dev aif o = (st, .ok none))) ∧
    (∀ m, body = .error (.otherExc m) →
      jinja_stage_handler path body =
        .error (.configError ("Invalid expression. " ++ m) path)) ∧
    (∀ m p0, body = .error (.configError m p0) →
      jinja_stage_handler path body =
        .error (.configError ("Invalid expression. " ++ m) path)) := by
  refine ⟨?_, ?_, ?_⟩
  · intro hbody
    subst hbody
    refine ⟨rfl, ?_⟩
    intro hcache hopt
    have hb : base_render (fun (_ : DateKey) (_ : List Unit) (_ : Bool) =>
        jinja_stage_handler path (.error .parsetimeAdapterCall : Except PyExc (List Expr)))
        st.cache key snapshots is_dev = .error .parsetimeAdapterCall := by
      simp [base_render, hcache, jinja_stage_handler]
    rw [query_render, query_render_stage1]
    simp only [hb, hopt]
    simp [ite_self]
  · intro m hbody
    subst hbody
    rfl
  · intro m p0 hbody
    subst hbody
    rfl

theorem parsetime_adapter_call_handling_witness :
    (((.error .parsetimeAdapterCall : Except PyExc (List Nat)) =
        .error .parsetimeAdapterCall) ∧
      (lookupA (QRState.mk ([] : List (DateKey × List Nat)) []).cache (0, 0, 0) = none) ∧
      (lookupA (QRState.mk ([] : List (DateKey × List Nat)) []).optimized_cache (0, 0, 0)
          = none) ∧
      query_render (fun _ _ _ =>
          jinja_stage_handler "models/m.sql"
            (.error .parsetimeAdapterCall : Except PyExc (List Nat)))
        id (fun (q : Nat) (_ : List Unit) _ _ => q) false id ⟨[], []⟩ (0, 0, 0)
        [] [] false false true = (⟨[], []⟩, .ok none)) ∧
    (jinja_stage_handler "models/m.sql" (.error (.otherExc "boom") : Except PyExc (List Nat)) =
      .error (.configError ("Invalid expression. " ++ "boom") "models/m.sql")) := by
  have h := parsetime_adapter_call_handling "models/m.sql"
    (.error .parsetimeAdapterCall : Except PyExc (List Nat))
    id (fun (q : Nat) (_ : List Unit) _ _ => q) false id ⟨[], []⟩ (0, 0, 0)
    [] [] false false true
  refine ⟨⟨rfl, rfl, rfl, (h.1 rfl).2 rfl rfl⟩, ?_⟩
  exact (parsetime_adapter_call_handling "models/m.sql"
    (.error (.otherExc "boom") : Except PyExc (List Nat))
    id (fun (q : Nat) (_ : List Unit) _ _ => q) false id ⟨[], []⟩ (0, 0, 0)
    [] [] false false true).2.1 "boom" rfl

/-! ## QueryRenderer._optimize_query (renderer.py:391-439) -/

/-- A top-level SELECT item as inspected at renderer.py:432-437: a star, a named
projection, an anonymous projection (output_name = ""), or an explicit alias. -/
inductive SelItem where
  | star
  | col (name : String)
  | anon
  | aliasItem (inner : SelItem) (name : String)
deriving DecidableEq, Repr

/-- sqlglot output_name of a select item: "*" for a star, "" for an expression with no
name, otherwise the name. -/
def SelItem.output_name : SelItem → String
  | .star => "*"
  | .col n => n
  | .anon => ""
  | .aliasItem _ n => n

/-- Whether the item is an exp.Alias (the isinstance check at renderer.py:433). -/
def SelItem.isAlias : SelItem → Bool
  | .aliasItem _ _ => true
  | _ => false

/-- The query as seen by _optimize_query: its top-level projection list, the table names
it references (the result of the d.find_tables scan at renderer.py:397), and a trace of
the shape-preserving external passes applied to it. -/
structure OQuery where
  selects : List SelItem
  tables : List String
  marks : List String
deriving DecidableEq, Repr

/-- sqlglot qualify_tables inside the fallback's _normalize_and_quote scope
(renderer.py:431, 444): external pass, rewrites table qualification only; modelled as a
shape-preserving marker. -/
def qualify_tablesO (q : OQuery) : OQuery := { q with marks := "qualify_tables" :: q.marks }

/-- sqlglot normalize_identifiers (renderer.py:445): external pass renaming identifiers
per dialect; shape-preserving marker. -/
def normalize_identifiersO (q : OQuery) : OQuery :=
  { q with marks := "normalize_identifiers" :: q.marks }

/-- sqlglot quote_identifiers (renderer.py:447): external pass quoting identifiers per
dialect; shape-preserving marker. -/
def quote_identifiersO (q : OQuery) : OQuery :=
  { q with marks := "quote_identifiers" :: q.marks }

/-- The result of annotate_types(query, schema) (renderer.py:439): the query, marked as
type-annotated with the schema that was in force. -/
structure AnnotatedQuery where
  query : OQuery
  annotated_with_schema : List (String × Nat)
deriving DecidableEq, Repr

/-- sqlglot annotate_types as called at renderer.py:439. -/
def annotate_typesO (q : OQuery) (schema : List (String × Nat)) : AnnotatedQuery :=
  ⟨q, schema⟩

/-- MappingSchema.find on a dependency (renderer.py:399): lookup of the table's column
types in the schema mapping. -/
def lookupS (xs : List (String × Nat)) (k : String) : Option Nat :=
  (xs.find? (fun p => p.1 = k)).map (fun p => p.2)

/-- The alias loop of the non-optimized fallback (renderer.py:432-437): every top-level
select item that is not already an alias and whose output name is neither "*" nor ""
is replaced by an explicit alias onto its output name. -/
def alias_unnamed (q : OQuery) : OQuery :=
  { q with selects := q.selects.map (fun s =>
      if ¬ s.isAlias = true ∧ s.output_name ≠ "*" ∧ s.output_name ≠ "" then
        .aliasItem s s.output_name
      else s) }

/-- The whole fallback branch of the finally block (renderer.py:428-437): a fresh copy
of the original query run through the _normalize_and_quote scope with the alias loop
as body. -/
def fallback_aliased (q : OQuery) : OQuery :=
  quote_identifiersO (alias_unnamed (normalize_identifiersO (qualify_tablesO q)))

/-- Embeds QueryRenderer._optimize_query (renderer.py:391-439). qualify_simplify
abstracts the sqlglot pipeline simplify(qualify(query.copy(), schema,
infer_schema=False)) (renderer.py:414-423), which may raise a SqlglotError. The schema
is rebuilt empty when any dependency other than the model itself has no schema entry
(renderer.py:397-408); should_optimize requires a non-empty schema or no dependencies
(renderer.py:410); on a SqlglotError, or when optimization was skipped, the finally
block replaces the result with the aliased fallback of the original (renderer.py:
427-437); the result is always annotate_types(query, schema) (renderer.py:439). -/
def optimize_query
    (qualify_simplify : OQuery → List (String × Nat) → Except Unit OQuery)
    (schema0 : List (String × Nat)) (model_name : Option String) (query : OQuery) :
    AnnotatedQuery :=
  let original := query
  let dependencies := query.tables.filter (fun t => ¬ model_name = some t)
  let missing := dependencies.any (fun dep => (lookupS schema0 dep).isNone)
  let schema := if missing then [] else schema0
  let should_optimize := ¬ schema.isEmpty = true ∨ dependencies.isEmpty = true
  let result :=
    if should_optimize then
      match qualify_simplify original schema with
      | .ok q2 => q2
      | .error _ => fallback_aliased original
    else fallback_aliased original
  annotate_typesO result schema

/-- C4: in _optimize_query, if any referenced dependency other than the model itself
lacks a schema entry, the qualify-then-simplify optimization is skipped and the result
is the original query with every top-level SELECT item that is not already an alias
and whose output name is neither "*" nor "" wrapped in an explicit alias (annotated
against the emptied schema); if qualify/simplify raises a SqlglotError, the same
aliased non-optimized fallback of the original query is used; on success the optimized
query is kept; and in every case the returned query is type-annotated. -/
theorem optimize_query_spec
    (qs : OQuery → List (String × Nat) → Except Unit OQuery)
    (schema0 : List (String × Nat)) (model_name : Option String) (query : OQuery) :
    ((∃ dep, dep ∈ query.tables ∧ ¬ model_name = some dep ∧ lookupS schema0 dep = none) →
      optimize_query qs schema0 model_name query =
        annotate_typesO (fallback_aliased query) []) ∧
    ((¬ ∃ dep, dep ∈ query.tables ∧ ¬ model_name = some dep ∧
        lookupS schema0 dep = none) →
      qs query schema0 = .error () →
      optimize_query qs schema0 model_name query =
        annotate_typesO (fallback_aliased query) schema0) ∧
    ((¬ ∃ dep, dep ∈ query.tables ∧ ¬ model_name = some dep ∧
        lookupS schema0 dep = none) →
      ∀ q2, qs query schema0 = .ok q2 →
      optimize_query qs schema0 model_name query = annotate_typesO q2 schema0) ∧
    (∀ q : OQuery, (fallback_aliased q).selects = q.selects.map (fun s =>
        if ¬ s.isAlias = true ∧ s.output_name ≠ "*" ∧ s.output_name ≠ "" then
          SelItem.aliasItem s s.output_name
        else s)) ∧
    (∃ q2 sch, optimize_query qs schema0 model_name query = annotate_typesO q2 sch) := by
  have hfilter : ∀ dep, dep ∈ query.tables.filter (fun t => ¬ model_name = some t) ↔
      (dep ∈ query.tables ∧ ¬ model_name = some dep) := by
    intro dep
    rw [List.mem_filter]
    simp
  have hnomiss : (¬ ∃ dep, dep ∈ query.tables ∧ ¬ model_name = some dep ∧
      lookupS schema0 dep = none) →
      ((query.tables.filter (fun t => ¬ model_name = some t)).any
        (fun dep => (lookupS schema0 dep).isNone) = false ∧
      (¬ schema0.isEmpty = true ∨
        (query.tables.filter (fun t => ¬ model_name = some t)).isEmpty = true)) := by
    intro hno
    constructor
    · rw [List.any_eq_false]
      intro dep hd
      rw [hfilter] at hd
      intro hcon
      exact hno ⟨dep, hd.1, hd.2, Option.isNone_iff_eq_none.mp hcon⟩
    · by_cases hdeps : query.tables.filter (fun t => ¬ model_name = some t) = []
      · right
        rw [hdeps]
        rfl
      · left
        obtain ⟨dep, hd⟩ := List.exists_mem_of_ne_nil _ hdeps
        rw [hfilter] at hd
        intro hempty
        have hs0 : schema0 = [] := List.isEmpty_iff.mp hempty
        refine hno ⟨dep, hd.1, hd.2, ?_⟩
        rw [hs0]
        rfl
  refine ⟨?_, ?_, ?_, ?_, ?_⟩
  · rintro ⟨dep, hmem, hne, hnone⟩
    have hdmem : dep ∈ query.tables.filter (fun t => ¬ model_name = some t) :=
      (hfilter dep).mpr ⟨hmem, hne⟩
    have hmiss : (query.tables.filter (fun t => ¬ model_name = some t)).any
        (fun dep => (lookupS schema0 dep).isNone) = true := by
      rw [List.any_eq_true]
      exact ⟨dep, hdmem, by simp [hnone]⟩
    have hdne : (query.tables.filter (fun t => ¬ model_name = some t)).isEmpty = false := by
      rw [Bool.eq_false_iff]
      intro h1
      exact List.ne_nil_of_mem hdmem (List.isEmpty_iff.mp h1)
    simp only [optimize_query]
    simp
    have hex : ∃ x ∈ query.tables, ¬ model_name = some x ∧ lookupS schema0 x = none :=
      ⟨dep, hmem, hne, hnone⟩
    have hnotso : ¬ (((∀ x ∈ query.tables, ¬ model_name = some x → ¬ lookupS schema0 x = none) ∧
        ¬ schema0 = []) ∨ ∀ a ∈ query.tables, model_name = some a) := by
      rintro (⟨hall, _⟩ | hall)
      · exact hall dep hmem hne hnone
      · exact hne (hall dep hmem)
    rw [if_pos hex, if_neg hnotso]
  · intro hno herr
    have hso : ((∀ x ∈ query.tables, ¬ model_name = some x → ¬ lookupS schema0 x = none) ∧
        ¬ schema0 = []) ∨ ∀ a ∈ query.tables, model_name = some a := by
      by_cases hall : ∀ a ∈ query.tables, model_name = some a
      · exact Or.inr hall
      · left
        push_neg at hall
        obtain ⟨a, ha, hna⟩ := hall
        refine ⟨fun x hx hnx hc => hno ⟨x, hx, hnx, hc⟩, fun hs0 => ?_⟩
        refine hno ⟨a, ha, hna, ?_⟩
        rw [hs0]
        rfl
    simp only [optimize_query]
    simp
    rw [if_neg hno, if_pos hso, herr]
  · intro hno q2 hok
    have hso : ((∀ x ∈ query.tables, ¬ model_name = some x → ¬ lookupS schema0 x = none) ∧
        ¬ schema0 = []) ∨ ∀ a ∈ query.tables, model_name = some a := by
      by_cases hall : ∀ a ∈ query.tables, model_name = some a
      · exact Or.inr hall
      · left
        push_neg at hall
        obtain ⟨a, ha, hna⟩ := hall
        refine ⟨fun x hx hnx hc => hno ⟨x, hx, hnx, hc⟩, fun hs0 => ?_⟩
        refine hno ⟨a, ha, hna, ?_⟩
        rw [hs0]
        rfl
    simp only [optimize_query]
    simp
    rw [if_neg hno, if_pos hso, hok]
  · intro q
    rfl
  · exact ⟨_, _, rfl⟩

/-! ## Table resolution (renderer.py:172-198, 450-493) -/

/-- The expression tree walked by _resolve_tables: table references (al = "" models a
missing alias, which is falsy in python), subqueries with an alias (exp.Subquery as
produced by nested_query.subquery at renderer.py:480-483), and any other node with
children. Identifier case and quoting are not represented: the qualify / normalize /
quote passes of the enclosing _normalize_and_quote scope act on the spelling of names
only, so on this AST they are the identity. -/
inductive RExpr where
  | table (name : String) (al : String)
  | subq (inner : RExpr) (al : String)
  | node (children : List RExpr)

/-- sqlglot Expression.transform semantics as used at renderer.py:488: visit top-down;
f returning some replacement stops the walk at that node (the replacement is not
revisited); f returning none (the python callback returning the node itself) recurses
into the children. -/
def transformR (f : RExpr → Option RExpr) : RExpr → RExpr
  | .table nm al =>
    match f (.table nm al) with
    | some e2 => e2
    | none => .table nm al
  | .subq inner al =>
    match f (.subq inner al) with
    | some e2 => e2
    | none => .subq (transformR f inner) al
  | .node cs =>
    match f (.node cs) with
    | some e2 => e2
    | none => .node (cs.attach.map (fun c => transformR f c.1))
decreasing_by
  all_goals simp_wf
  all_goals first
    | omega
    | (have hlt := List.sizeOf_lt_of_mem c.2; omega)

/-- exp.replace_tables (renderer.py:491): every table whose name is in the mapping is
renamed to its physical table name, the alias kept. -/
def replace_tablesR (mapping : List (String × String)) : RExpr → RExpr
  | .table nm al =>
    match (mapping.find? (fun p => p.1 = nm)).map (fun p => p.2) with
    | some nm2 => .table nm2 al
    | none => .table nm al
  | .subq inner al => .subq (replace_tablesR mapping inner) al
  | .node cs => .node (cs.attach.map (fun c => replace_tablesR mapping c.1))
decreasing_by
  all_goals simp_wf
  all_goals first
    | omega
    | (have hlt := List.sizeOf_lt_of_mem c.2; omega)

/-- Dict lookup in the physical table mapping. -/
def lookupM (mapping : List (String × String)) (k : String) : Option String :=
  (mapping.find? (fun p => p.1 = k)).map (fun p => p.2)

/-- The model data read by the _expand callback (renderer.py:471-472). -/
structure RModel where
  is_seed : Bool
  is_external : Bool
  view_name : String
deriving DecidableEq, Repr

/-- An entry of the snapshots dict (name → snapshot holding a model). -/
structure RSnapshot where
  name : String
  model : RModel
deriving DecidableEq, Repr

/-- snapshots[name] (renderer.py:471). -/
def find_snapshot (snapshots : List RSnapshot) (nm : String) : Option RSnapshot :=
  snapshots.find? (fun s => s.name = nm)

theorem replace_tablesR_nil : ∀ e : RExpr, replace_tablesR [] e = e
  | .table nm al => by
    rw [replace_tablesR]
    rfl
  | .subq inner al => by rw [replace_tablesR, replace_tablesR_nil inner]
  | .node cs => by
    rw [replace_tablesR]
    have hmap : cs.attach.map (fun c => replace_tablesR [] c.1) =
        cs.attach.map (fun c => c.1) :=
      List.map_congr_left (fun c _ => replace_tablesR_nil c.1)
    rw [hmap, List.attach_map_subtype_val]
decreasing_by
  all_goals simp_wf
  all_goals first
    | omega
    | (have hlt := List.sizeOf_lt_of_mem c.2; omega)

/-- The nested _expand callback (renderer.py:468-486): fires only on table nodes and
only when snapshots is non-empty; the name must be in the effective expand set and
registered in snapshots with a model that is neither a seed nor external; the model's
rendered query (render_query abstracts model.render_query with the same snapshots /
expand / is_dev / kwargs threaded through, renderer.py:473-478) is inlined as a
subquery aliased with the reference's alias or, when absent, the model's view name;
a render that returned None keeps the node and logs a warning (renderer.py:484-485). -/
def expand_callback (render_query : String → Option RExpr) (snapshots : List RSnapshot)
    (expand : List String) : RExpr → Option RExpr :=
  fun node => match node with
  | .table nm al =>
    if ¬ snapshots.isEmpty = true then
      match find_snapshot snapshots nm with
      | some snap =>
        if nm ∈ expand ∧ ¬ snap.model.is_seed = true ∧
            ¬ snap.model.is_external = true then
          match render_query nm with
          | some nested =>
            some (.subq nested (if al = "" then snap.model.view_name else al))
          | none => none
        else none
      | none => none
    else none
  | _ => none

/-- Embeds the module-level _resolve_tables (renderer.py:450-493). mapping abstracts
to_table_mapping(snapshots.values(), is_dev) (sqlmesh.core.snapshot, not under src/):
the physical-table mapping derived from the snapshots. The effective expand set is the
given one plus every snapshot name absent from the mapping (renderer.py:464); when it
is non-empty the expression is transformed with the _expand callback; afterwards, when
the mapping is non-empty, every table name found in it is replaced by its physical
name (renderer.py:490-491). -/
def resolve_tables_fn (render_query : String → Option RExpr)
    (mapping : List (String × String)) (snapshots : List RSnapshot)
    (expand0 : List String) (e : RExpr) : RExpr :=
  let expand := expand0 ++
    (snapshots.filter (fun s => (lookupM mapping s.name).isNone)).map (fun s => s.name)
  let e1 :=
    if expand.isEmpty then e
    else transformR (expand_callback render_query snapshots expand) e
  if mapping.isEmpty then e1 else replace_tablesR mapping e1

/-- Embeds BaseExpressionRenderer._resolve_tables (renderer.py:172-198): with neither
snapshots nor expand the expression is returned unchanged; otherwise the expression is
copied, run through the _normalize_and_quote scope (identity on this AST, which does
not represent identifier spelling) with the module-level _resolve_tables as body. -/
def resolve_tables_method (render_query : String → Option RExpr)
    (mapping : List (String × String)) (snapshots : List RSnapshot)
    (expand : List String) (e : RExpr) : RExpr :=
  if snapshots.isEmpty = true ∧ expand.isEmpty = true then e
  else resolve_tables_fn render_query mapping snapshots expand e

/-- C5 counterexample: a table name placed in expand but present in no snapshot is not
inlined — with empty snapshots the expansion callback never fires (renderer.py:469)
and the reference survives unchanged, contradicting the claim that every table
reference whose name is in expand is replaced by the model's rendered query. -/
theorem resolve_tables_unexpanded_cex :
    resolve_tables_method (fun _ => some (.node [])) [] [] ["a"] (.table "a" "") =
      .table "a" "" ∧
    RExpr.table "a" "" ≠ .subq (.node []) "a" := by
  constructor
  · rw [resolve_tables_method]
    simp only [resolve_tables_fn]
    rw [transformR]
    simp [expand_callback]
  · intro h
    exact RExpr.noConfusion h

theorem if_empty_replace (mapping : List (String × String)) (x : RExpr) :
    (if mapping.isEmpty = true then x else replace_tablesR mapping x) =
      replace_tablesR mapping x := by
  by_cases hm : mapping.isEmpty = true
  · rw [if_pos hm, List.isEmpty_iff.mp hm, replace_tablesR_nil]
  · rw [if_neg hm]

/-- C5 (amended): with neither snapshots nor expand, _resolve_tables returns the
expression unchanged. A table reference whose name is in the effective expand set
(expand plus the snapshot names absent from the physical mapping) is replaced by that
model's rendered query inlined as a subquery aliased with the reference's alias or the
model's view name — provided the name is registered in snapshots, its model is
neither a seed nor external, and the nested render is not None; the mapping pass then
runs over the result. A table reference not in the effective expand set whose name is
in the mapping is replaced by its physical table name. -/
theorem resolve_tables_spec
    (render_query : String → Option RExpr) (mapping : List (String × String))
    (snapshots : List RSnapshot) (expand : List String) :
    (∀ e : RExpr, resolve_tables_method render_query mapping [] [] e = e) ∧
    (∀ nm al snap nested,
      nm ∈ expand ++ (snapshots.filter (fun s => (lookupM mapping s.name).isNone)).map
          (fun s => s.name) →
      find_snapshot snapshots nm = some snap →
      snap.model.is_seed = false → snap.model.is_external = false →
      render_query nm = some nested →
      resolve_tables_fn render_query mapping snapshots expand (.table nm al) =
        replace_tablesR mapping
          (.subq nested (if al = "" then snap.model.view_name else al))) ∧
    (∀ nm al p,
      nm ∉ expand ++ (snapshots.filter (fun s => (lookupM mapping s.name).isNone)).map
          (fun s => s.name) →
      lookupM mapping nm = some p →
      resolve_tables_fn render_query mapping snapshots expand (.table nm al) =
        .table p al) := by
  refine ⟨?_, ?_, ?_⟩
  · intro e
    simp [resolve_tables_method]
  · intro nm al snap nested hmem hfind hseed hext hrq
    have hmemS : snap ∈ snapshots := List.mem_of_find?_eq_some hfind
    have hS : snapshots.isEmpty = false := by
      rw [Bool.eq_false_iff]
      intro h1
      exact List.ne_nil_of_mem hmemS (List.isEmpty_iff.mp h1)
    have hne : (expand ++ (snapshots.filter
        (fun s => (lookupM mapping s.name).isNone)).map (fun s => s.name)).isEmpty
        = false := by
      rw [Bool.eq_false_iff]
      intro h1
      exact List.ne_nil_of_mem hmem (List.isEmpty_iff.mp h1)
    have htrans : transformR (expand_callback render_query snapshots
        (expand ++ (snapshots.filter (fun s => (lookupM mapping s.name).isNone)).map
          (fun s => s.name))) (.table nm al) =
        .subq nested (if al = "" then snap.model.view_name else al) := by
      rw [transformR]
      simp [expand_callback, hS, hfind, hmem, hseed, hext, hrq]
    rw [resolve_tables_fn]
    simp only [hne, Bool.false_eq_true, if_false, htrans, if_empty_replace]
  · intro nm al p hnm hp
    have hmne : mapping ≠ [] := by
      intro h0
      subst h0
      simp [lookupM] at hp
    have hm : mapping.isEmpty = false := by
      rw [Bool.eq_false_iff]
      intro h1
      exact hmne (List.isEmpty_iff.mp h1)
    have hrepl : replace_tablesR mapping (.table nm al) = .table p al := by
      rw [replace_tablesR]
      simp only [lookupM] at hp
      rw [hp]
    have htrans : transformR (expand_callback render_query snapshots
        (expand ++ (snapshots.filter (fun s => (lookupM mapping s.name).isNone)).map
          (fun s => s.name))) (.table nm al) = .table nm al := by
      rw [transformR]
      by_cases hS : snapshots.isEmpty = true
      · simp [expand_callback, hS]
      · rcases hf : find_snapshot snapshots nm with _ | snap2
        · simp [expand_callback, hS, hf]
        · simp [expand_callback, hS, hf, hnm]
    rw [resolve_tables_fn]
    simp only [hm, Bool.false_eq_true, if_false, htrans]
    split
    · exact hrepl
    · exact hrepl

theorem optimize_query_spec_witness :
    (∃ dep, dep ∈ (OQuery.mk [.col "x", .anon, .star] ["tbl"] []).tables ∧
      ¬ (none : Option String) = some dep ∧
      lookupS [] dep = none) ∧
    optimize_query (fun q _ => .ok q) [] none ⟨[.col "x", .anon, .star], ["tbl"], []⟩ =
      annotate_typesO (fallback_aliased ⟨[.col "x", .anon, .star], ["tbl"], []⟩) [] := by
  refine ⟨⟨"tbl", by simp, by simp, rfl⟩, ?_⟩
  exact (optimize_query_spec (fun q _ => .ok q) [] none
    ⟨[.col "x", .anon, .star], ["tbl"], []⟩).1 ⟨"tbl", by simp, by simp, rfl⟩

theorem resolve_tables_spec_witness :
    ("m" ∈ (["m"] : List String) ++
      (([⟨"m", ⟨false, false, "v"⟩⟩] : List RSnapshot).filter
        (fun s => (lookupM [("m", "phys_m")] s.name).isNone)).map (fun s => s.name)) ∧
    find_snapshot [⟨"m", ⟨false, false, "v"⟩⟩] "m" = some ⟨"m", ⟨false, false, "v"⟩⟩ ∧
    resolve_tables_fn (fun _ => some (.node [])) [("m", "phys_m")]
        [⟨"m", ⟨false, false, "v"⟩⟩] ["m"] (.table "m" "") =
      replace_tablesR [("m", "phys_m")]
        (.subq (.node []) (if "" = "" then "v" else "")) := by
  refine ⟨by simp, rfl, ?_⟩
  exact (resolve_tables_spec (fun _ => some (.node [])) [("m", "phys_m")]
    [⟨"m", ⟨false, false, "v"⟩⟩] ["m"]).2.1 "m" "" ⟨"m", ⟨false, false, "v"⟩⟩ (.node [])
    (by simp) rfl rfl rfl rfl
